import Mathlib

/-!
Verification of the registration workflow and notification fan-out of the
back_ITDC_V1 service, embedded shallowly in Lean 4.

The embedding mirrors:
  * `app/websocket/websocket.py`        — `NotificationManager` (connect /
    disconnect / send_to_company) and the `_json_default` serialization hook;
  * `app/repositories/employe_repository.py` — the verification-code store,
    the pending-registration store and the durable-entity queries;
  * `app/services/registration_service.py`   — the registration state machine
    (process_personal_info, verify_user_email, complete_registration,
    get_pending_state);
  * the collaborating services it calls (`entreprise_service.create_entreprise`,
    `poste_service.create_poste`, `employe_service.create_employe`).

Conventions: wall-clock time is a `Nat` (minutes); `datetime.utcnow()` becomes
an explicit `now` parameter.  UUIDs and websocket handles are `Nat`s drawn from
a fresh-id counter.  Python exceptions become an error type `RegError`; each
service call returns `Except RegError α × Db` so that state mutations committed
before a raise are preserved.  External effects (SMTP send, socket send, JSON
serialization of a payload value) are parameters of the functions that perform
them, mirroring the spot where the Python code performs the I/O.
-/

namespace ITDC

/-! ## Notification fan-out manager (`app/websocket/websocket.py`)

`NotificationManager.active_connections : Dict[str, List[WebSocket]]` is
modelled as a function from channel keys to an optional list of connection
handles; `none` means the key is absent from the dict. -/

/-- A JSON payload value as classified by `json.dumps(..., default=_json_default)`:
either natively serializable, a `UUID` (which `_json_default` converts to `str`),
or anything else (for which `_json_default` raises `TypeError`). -/
inductive JVal where
  | native
  | uuid
  | nonSerializable
deriving DecidableEq, Repr

/-- Whether one payload value survives `json.dumps` with the `_json_default`
fallback of `websocket.py` (UUID → str; any other non-native type raises). -/
def jvalSerializable : JVal → Bool
  | .native => true
  | .uuid => true
  | .nonSerializable => false

/-- `json.dumps({"event": event, "data": data}, default=_json_default)` succeeds
iff every value occurring in the payload is native or a UUID. -/
def serializable (payload : List JVal) : Bool :=
  payload.all jvalSerializable

/-- The in-memory connection registry: channel key (company id) ↦ list of
connection handles, `none` when no entry exists for the key. -/
def Registry : Type := String → Option (List Nat)

/-- The registry of a freshly constructed `NotificationManager` (`{}`). -/
def emptyRegistry : Registry := fun _ => none

/-- Write one key of the dict (`self.active_connections[c] = l`). -/
def rset (r : Registry) (c : String) (l : List Nat) : Registry :=
  fun c' => if c' = c then some l else r c'

/-- Delete one key of the dict (`del self.active_connections[c]`). -/
def rdel (r : Registry) (c : String) : Registry :=
  fun c' => if c' = c then none else r c'

/-- `NotificationManager.connect`: ensure the key exists (empty list) and
append the handle.  The `websocket.accept()` handshake has no registry
effect and is not modelled. -/
def connect (r : Registry) (c : String) (w : Nat) : Registry :=
  match r c with
  | none => rset r c [w]
  | some l => rset r c (l ++ [w])

/-- `NotificationManager.disconnect`: if the key exists and the handle is in
its list, remove the first occurrence (`list.remove`), then delete the key
entirely if its list became empty. -/
def disconnect (r : Registry) (c : String) (w : Nat) : Registry :=
  match r c with
  | none => r
  | some l =>
    if w ∈ l then
      let l' := l.erase w
      if l' = [] then rdel r c else rset r c l'
    else r

/-- Result of one `send_to_company` call: the registry afterwards, the
snapshot of handles a delivery was attempted to, and the handles that were
pruned because their delivery attempt raised. -/
structure SendResult where
  registry : Registry
  attempted : List Nat
  pruned : List Nat

/-- `NotificationManager.send_to_company`: if the key is absent this is a
logged no-op; otherwise iterate over a snapshot (`list(...)`) of the current
list, attempt `ws.send_text(json.dumps(...))` for each handle — an attempt
raises iff the payload is not serializable or the socket write fails
(`sendOk w = false`) — collect the failed handles, and `disconnect` each of
them after the pass.  Every exception of the loop body is caught, so the
method itself never raises: the `Except` layer records that contract and the
body only ever returns `.ok`. -/
def send_to_company (r : Registry) (c : String) (payload : List JVal)
    (sendOk : Nat → Bool) : Except String SendResult :=
  match r c with
  | none => .ok ⟨r, [], []⟩
  | some l =>
    let disconnected := l.filter (fun w => !(serializable payload && sendOk w))
    .ok ⟨disconnected.foldl (fun acc w => disconnect acc c w) r, l, disconnected⟩

/-- The §3 registry invariant: a handle appears in at most one channel's
list, and at most once in it. -/
def RegInv (r : Registry) : Prop :=
  (∀ c l, r c = some l → l.Nodup) ∧
    (∀ c₁ c₂ l₁ l₂ w, c₁ ≠ c₂ → r c₁ = some l₁ → r c₂ = some l₂ →
      w ∈ l₁ → w ∉ l₂)

/-- A handle is registered nowhere in the registry. -/
def FreshHandle (r : Registry) (w : Nat) : Prop :=
  ∀ c l, r c = some l → w ∉ l

/-! ### Registry lemmas -/

theorem rset_same (r : Registry) (c : String) (l : List Nat) :
    rset r c l c = some l := by
  simp [rset]

theorem rset_other (r : Registry) {c c' : String} (l : List Nat)
    (h : c' ≠ c) : rset r c l c' = r c' := by
  simp [rset, h]

theorem rdel_same (r : Registry) (c : String) : rdel r c c = none := by
  simp [rdel]

theorem rdel_other (r : Registry) {c c' : String} (h : c' ≠ c) :
    rdel r c c' = r c' := by
  simp [rdel, h]

/-- `disconnect` touches no channel other than the one it was given. -/
theorem disconnect_other (r : Registry) {c c' : String} (w : Nat)
    (h : c' ≠ c) : disconnect r c w c' = r c' := by
  unfold disconnect
  cases hrc : r c with
  | none => rfl
  | some l =>
    by_cases hw : w ∈ l
    · simp only [hw, if_true]
      by_cases hnil : l.erase w = []
      · simp [hnil, rdel_other _ h]
      · simp [hnil, rset_other _ _ h]
    · simp [hw]

/-- Folding `disconnect` over any list of handles leaves other channels
untouched. -/
theorem foldl_disconnect_other (ds : List Nat) (r : Registry)
    {c c' : String} (h : c' ≠ c) :
    (ds.foldl (fun acc w => disconnect acc c w) r) c' = r c' := by
  induction ds generalizing r with
  | nil => rfl
  | cons d ds ih => rw [List.foldl_cons, ih, disconnect_other _ _ h]

/-- Once a channel's entry is gone, further disconnects keep it gone. -/
theorem foldl_disconnect_none (ds : List Nat) (r : Registry) (c : String)
    (h : r c = none) :
    (ds.foldl (fun acc w => disconnect acc c w) r) c = none := by
  induction ds generalizing r with
  | nil => exact h
  | cons d ds ih =>
    rw [List.foldl_cons]
    apply ih
    unfold disconnect
    rw [h]
    exact h

/-- Repeatedly erasing elements from `[]` yields `[]`. -/
theorem foldl_erase_nil (ds : List Nat) :
    ds.foldl (fun acc w => acc.erase w) ([] : List Nat) = [] := by
  induction ds with
  | nil => rfl
  | cons d ds ih => simpa using ih

/-- Core fan-out lemma: folding `disconnect c` over a list of handles `ds`
acts on channel `c` exactly like folding `List.erase` on its subscriber
list, with the entry deleted as soon as the list becomes empty. -/
theorem foldl_disconnect_channel (ds : List Nat) (r : Registry) (c : String)
    (l : List Nat) (hrc : r c = some l) (hne : l ≠ []) :
    (ds.foldl (fun acc w => disconnect acc c w) r) c =
      (if ds.foldl (fun acc w => acc.erase w) l = [] then none
       else some (ds.foldl (fun acc w => acc.erase w) l)) := by
  induction ds generalizing r l with
  | nil => simpa [hne] using hrc
  | cons d ds ih =>
    rw [List.foldl_cons, List.foldl_cons]
    by_cases hd : d ∈ l
    · by_cases hnil : l.erase d = []
      · have h1 : disconnect r c d c = none := by
          unfold disconnect
          rw [hrc]
          simp [hd, hnil, rdel_same]
        rw [foldl_disconnect_none _ _ _ h1, hnil, foldl_erase_nil]
        simp
      · have h1 : disconnect r c d c = some (l.erase d) := by
          unfold disconnect
          rw [hrc]
          simp [hd, hnil, rset_same]
        exact ih _ _ h1 hnil
    · have h1 : disconnect r c d = r := by
        unfold disconnect
        rw [hrc]
        simp [hd]
      rw [h1, List.erase_of_not_mem hd]
      exact ih _ _ hrc hne

/-- Erasing exactly the elements that satisfy `p` (in order) from a list
leaves the elements that do not satisfy `p`. -/
theorem foldl_erase_filter (l : List Nat) (p : Nat → Bool) :
    (l.filter p).foldl (fun acc w => acc.erase w) l =
      l.filter (fun w => !p w) := by
  induction l with
  | nil => rfl
  | cons x xs ih =>
    by_cases hx : p x
    · simp only [List.filter_cons, hx, if_true, List.foldl_cons,
        List.erase_cons_head, Bool.not_true, List.filter_cons_of_neg]
      exact ih
    · have hx' : p x = false := by simpa using hx
      have hstep : ∀ (ds : List Nat) (acc : List Nat),
          (∀ d ∈ ds, p d = true) →
          ds.foldl (fun acc w => acc.erase w) (x :: acc) =
            x :: ds.foldl (fun acc w => acc.erase w) acc := by
        intro ds
        induction ds with
        | nil => intro acc _; rfl
        | cons d ds ihd =>
          intro acc hall
          have hdx : (x == d) = false := by
            have hpd : p d = true := hall d (by simp)
            by_cases hxd : x = d
            · rw [hxd] at hx'; rw [hpd] at hx'; cases hx'
            · simpa using hxd
          rw [List.foldl_cons, List.foldl_cons, List.erase_cons, hdx]
          exact ihd _ (fun e he => hall e (by simp [he]))
      simp only [List.filter_cons, hx', if_neg, Bool.false_eq_true,
        not_false_iff, Bool.not_false, List.filter_cons_of_pos]
      rw [hstep _ _ (fun d hd => (List.mem_filter.mp hd).2)]
      rw [ih]
      simp

/-- What one `send_to_company` pass leaves on the target channel. -/
theorem send_channel_eq (r : Registry) (c : String) (payload : List JVal)
    (sendOk : Nat → Bool) (l : List Nat) (hrc : r c = some l) (hne : l ≠ [])
    (res : SendResult) (hres : send_to_company r c payload sendOk = .ok res) :
    res.registry c =
      (if l.filter (fun w => serializable payload && sendOk w) = [] then none
       else some (l.filter (fun w => serializable payload && sendOk w))) := by
  unfold send_to_company at hres
  rw [hrc] at hres
  cases hres
  have h1 := foldl_disconnect_channel
    (l.filter (fun w => !(serializable payload && sendOk w))) r c l hrc hne
  rw [foldl_erase_filter l (fun w => !(serializable payload && sendOk w))] at h1
  simpa using h1

/-- Writing a list whose elements are nodup and foreign to every other
channel preserves the registry invariant. -/
theorem RegInv.rset_gen {r : Registry} (h : RegInv r) {c : String}
    {l' : List Nat} (hnd : l'.Nodup)
    (hcross : ∀ x, x ∈ l' → ∀ c₂ l₂, c₂ ≠ c → r c₂ = some l₂ → x ∉ l₂) :
    RegInv (rset r c l') := by
  constructor
  · intro c₀ l₀ h₀
    by_cases hc : c₀ = c
    · subst hc; rw [rset_same] at h₀; cases h₀; exact hnd
    · rw [rset_other _ _ hc] at h₀; exact h.1 _ _ h₀
  · intro c₁ c₂ l₁ l₂ w hne h₁ h₂ hw
    by_cases hc₁ : c₁ = c
    · subst hc₁
      rw [rset_same] at h₁; cases h₁
      rw [rset_other _ _ (fun hx => hne hx.symm)] at h₂
      exact hcross w hw c₂ l₂ (fun hx => hne hx.symm) h₂
    · rw [rset_other _ _ hc₁] at h₁
      by_cases hc₂ : c₂ = c
      · subst hc₂
        rw [rset_same] at h₂; cases h₂
        intro hwl'
        exact hcross w hwl' c₁ l₁ hc₁ h₁ hw
      · rw [rset_other _ _ hc₂] at h₂
        exact h.2 c₁ c₂ l₁ l₂ w hne h₁ h₂ hw

/-- Deleting a channel entry preserves the registry invariant. -/
theorem RegInv.rdel_inv {r : Registry} (h : RegInv r) {c : String} :
    RegInv (rdel r c) := by
  constructor
  · intro c₀ l₀ h₀
    by_cases hc : c₀ = c
    · subst hc; rw [rdel_same] at h₀; cases h₀
    · rw [rdel_other _ hc] at h₀; exact h.1 _ _ h₀
  · intro c₁ c₂ l₁ l₂ w hne h₁ h₂ hw
    by_cases hc₁ : c₁ = c
    · subst hc₁; rw [rdel_same] at h₁; cases h₁
    · rw [rdel_other _ hc₁] at h₁
      by_cases hc₂ : c₂ = c
      · subst hc₂; rw [rdel_same] at h₂; cases h₂
      · rw [rdel_other _ hc₂] at h₂
        exact h.2 c₁ c₂ l₁ l₂ w hne h₁ h₂ hw

/-- `connect` with a handle registered nowhere preserves the invariant. -/
theorem connect_inv (r : Registry) (c : String) (w : Nat)
    (h : RegInv r) (hf : FreshHandle r w) : RegInv (connect r c w) := by
  unfold connect
  cases hrc : r c with
  | none =>
    exact h.rset_gen (by simp)
      (fun x hx c₂ l₂ _ h₂ => by
        have hxw : x = w := by simpa using hx
        subst hxw; exact hf c₂ l₂ h₂)
  | some l =>
    have hwl : w ∉ l := hf c l hrc
    exact h.rset_gen (by simp [List.nodup_append, h.1 c l hrc, hwl])
      (fun x hx c₂ l₂ hne h₂ => by
        rcases List.mem_append.mp hx with hxl | hxw
        · exact h.2 c c₂ l l₂ x (fun he => hne he.symm) hrc h₂ hxl
        · have hxw' : x = w := by simpa using hxw
          subst hxw'; exact hf c₂ l₂ h₂)

/-- `disconnect` always preserves the invariant. -/
theorem disconnect_inv (r : Registry) (c : String) (w : Nat)
    (h : RegInv r) : RegInv (disconnect r c w) := by
  unfold disconnect
  cases hrc : r c with
  | none => exact h
  | some l =>
    by_cases hw : w ∈ l
    · simp only [hw, if_true]
      by_cases hnil : l.erase w = []
      · simp only [hnil, if_true]
        exact h.rdel_inv
      · simp only [hnil, if_neg, not_false_iff]
        exact h.rset_gen ((h.1 c l hrc).erase w)
          (fun x hx c₂ l₂ hne h₂ =>
            h.2 c c₂ l l₂ x (fun he => hne he.symm) hrc h₂
              (List.mem_of_mem_erase hx))
    · simp only [hw, if_neg, not_false_iff]
      exact h

/-- Folding `disconnect` preserves the invariant. -/
theorem foldl_disconnect_inv (ds : List Nat) (r : Registry) (c : String)
    (h : RegInv r) :
    RegInv (ds.foldl (fun acc w => disconnect acc c w) r) := by
  induction ds generalizing r with
  | nil => exact h
  | cons d ds ih => exact ih _ (disconnect_inv _ _ _ h)

/-- `disconnect` of a handle that is not registered under the given channel
is the identity. -/
theorem disconnect_of_not_mem (r : Registry) (c : String) (w : Nat)
    (h : ∀ l, r c = some l → w ∉ l) : disconnect r c w = r := by
  unfold disconnect
  cases hrc : r c with
  | none => rfl
  | some l => simp [h l hrc]

/-! ## Claim C3 -/

/-- C3: `send_to_company` never raises to its caller.  With no channel entry
it is a no-op that creates no entry; otherwise it attempts delivery to the
snapshot of current subscribers, prunes exactly the subscribers whose
delivery attempt raised (after the broadcast pass), leaves every other
channel untouched, and removes the channel entry once its subscriber list
becomes empty. -/
theorem C3_publish_never_raises (r : Registry) (c : String)
    (payload : List JVal) (sendOk : Nat → Bool) :
    (∃ res, send_to_company r c payload sendOk = .ok res) ∧
    (r c = none →
      send_to_company r c payload sendOk = .ok ⟨r, [], []⟩) ∧
    (∀ l res, r c = some l →
      send_to_company r c payload sendOk = .ok res →
      res.attempted = l ∧
      res.pruned = l.filter (fun w => !(serializable payload && sendOk w)) ∧
      (∀ c', c' ≠ c → res.registry c' = r c') ∧
      (l ≠ [] → res.registry c =
        (if l.filter (fun w => serializable payload && sendOk w) = [] then none
         else some (l.filter (fun w => serializable payload && sendOk w))))) := by
  refine ⟨?_, ?_, ?_⟩
  · unfold send_to_company
    cases r c with
    | none => exact ⟨_, rfl⟩
    | some l => exact ⟨_, rfl⟩
  · intro h
    unfold send_to_company
    rw [h]
  · intro l res hrc hres
    have hres' := hres
    unfold send_to_company at hres'
    rw [hrc] at hres'
    cases hres'
    refine ⟨rfl, rfl, ?_, ?_⟩
    · intro c' hc'
      exact foldl_disconnect_other _ _ hc'
    · intro hne
      exact send_channel_eq r c payload sendOk l hrc hne _ hres

/-- Witness for C3: one subscriber whose socket write fails is pruned and
the emptied channel entry is removed. -/
theorem C3_publish_never_raises_witness :
    ∃ res,
      send_to_company (connect emptyRegistry "acme" 5) "acme" [JVal.native]
        (fun _ => false) = .ok res ∧
      res.attempted = [5] ∧ res.pruned = [5] ∧ res.registry "acme" = none := by
  obtain ⟨res, hres⟩ :=
    (C3_publish_never_raises (connect emptyRegistry "acme" 5) "acme"
      [JVal.native] (fun _ => false)).1
  have hch : connect emptyRegistry "acme" 5 "acme" = some [5] := by decide
  have h3 := (C3_publish_never_raises (connect emptyRegistry "acme" 5) "acme"
    [JVal.native] (fun _ => false)).2.2 [5] res hch hres
  refine ⟨res, hres, h3.1, by simpa using h3.2.1, ?_⟩
  have h4 := h3.2.2.2 (by decide)
  simpa using h4

/-! ## Claim C8 -/

/-- C8 counterexample: `connect` registers a handle unconditionally, so
connecting the same handle twice under the same company puts it twice in
that company's list, violating the claimed at-most-once invariant. -/
theorem C8_counterexample :
    connect (connect emptyRegistry "a" 0) "a" 0 "a" = some [0, 0] ∧
      ¬ RegInv (connect (connect emptyRegistry "a" 0) "a" 0) := by
  refine ⟨by decide, ?_⟩
  intro h
  have hnd := h.1 "a" [0, 0] (by decide)
  simp at hnd

/-- C8 (amended): the registry invariant — each handle in at most one
channel's list, at most once — is preserved by `disconnect` and
`send_to_company` unconditionally, and by `connect` provided the handle is
not currently registered anywhere (which is how the websocket endpoint uses
it: one `connect` per fresh connection); `disconnect` of a handle not
registered under the given company leaves the registry unchanged. -/
theorem C8_registry_invariant (r : Registry) (c : String) (w : Nat)
    (payload : List JVal) (sendOk : Nat → Bool) (h : RegInv r) :
    (FreshHandle r w → RegInv (connect r c w)) ∧
    RegInv (disconnect r c w) ∧
    (∀ res, send_to_company r c payload sendOk = .ok res →
      RegInv res.registry) ∧
    ((∀ l, r c = some l → w ∉ l) → disconnect r c w = r) := by
  refine ⟨fun hf => connect_inv r c w h hf, disconnect_inv r c w h, ?_,
    disconnect_of_not_mem r c w⟩
  intro res hres
  unfold send_to_company at hres
  cases hrc : r c with
  | none => rw [hrc] at hres; cases hres; exact h
  | some l => rw [hrc] at hres; cases hres; exact foldl_disconnect_inv _ _ _ h

/-- Witness for C8: starting from the empty registry, connecting a fresh
handle keeps the invariant, and disconnecting an unregistered handle is a
no-op. -/
theorem C8_registry_invariant_witness :
    RegInv (connect emptyRegistry "a" 0) ∧
      disconnect emptyRegistry "a" 0 = emptyRegistry := by
  have hinv : RegInv emptyRegistry :=
    ⟨fun _ _ h => Option.noConfusion h,
     fun _ _ _ _ _ _ h => Option.noConfusion h⟩
  have h8 := C8_registry_invariant emptyRegistry "a" 0 [] (fun _ => true) hinv
  exact ⟨h8.1 (fun _ _ h => Option.noConfusion h),
    h8.2.2.2 (fun _ h => Option.noConfusion h)⟩

/-! ## Claim C10 -/

/-- C10: if the payload contains a value that is neither JSON-native nor a
UUID, `json.dumps` raises on every delivery attempt, so every current
subscriber is collected as failed and unsubscribed and the channel entry is
removed, while `send_to_company` still returns without raising. -/
theorem C10_unserializable_payload_empties_channel (r : Registry)
    (c : String) (payload : List JVal) (sendOk : Nat → Bool) (l : List Nat)
    (hrc : r c = some l) (hne : l ≠ [])
    (hbad : JVal.nonSerializable ∈ payload) :
    ∃ res, send_to_company r c payload sendOk = .ok res ∧
      res.attempted = l ∧ res.pruned = l ∧ res.registry c = none := by
  have hser : serializable payload = false := by
    rw [serializable, List.all_eq_false]
    exact ⟨JVal.nonSerializable, hbad, by simp [jvalSerializable]⟩
  have hdisc : l.filter (fun w => !(serializable payload && sendOk w)) = l := by
    simp [hser]
  simp only [send_to_company, hrc]
  refine ⟨_, rfl, rfl, ?_, ?_⟩
  · exact hdisc
  · show ((l.filter (fun w => !(serializable payload && sendOk w))).foldl
      (fun acc w => disconnect acc c w) r) c = none
    rw [hdisc]
    have h1 := foldl_disconnect_channel l r c l hrc hne
    have h2 : l.foldl (fun acc w => acc.erase w) l = [] := by
      have h3 := foldl_erase_filter l (fun _ => true)
      simpa using h3
    rw [h2] at h1
    simpa using h1

/-- Witness for C10: one healthy subscriber, one unserializable payload
value — the subscriber is pruned and the channel entry disappears. -/
theorem C10_unserializable_payload_empties_channel_witness :
    ∃ res,
      send_to_company (connect emptyRegistry "acme" 7) "acme"
        [JVal.native, JVal.nonSerializable] (fun _ => true) = .ok res ∧
      res.attempted = [7] ∧ res.pruned = [7] ∧ res.registry "acme" = none :=
  C10_unserializable_payload_empties_channel
    (connect emptyRegistry "acme" 7) "acme"
    [JVal.native, JVal.nonSerializable] (fun _ => true) [7]
    (by decide) (by decide) (by decide)

/-! ## Registration data model

Mirrors the SQLAlchemy models used by `employe_repository.py` and the JSON
dicts the registration service stores in `personal_info_json` /
`company_info_json`.  A JSON object of string-or-null values is an
association list `Jdict`; `json.dumps`/`json.loads` round-trip such dicts
exactly, so rows store the parsed form directly (`none` = SQL NULL column). -/

/-- Python `str.lower()` (ASCII-relevant part), written over the character
list so that kernel evaluation reduces; extensionally this is
`String.toLower`. -/
def pyLower (s : String) : String := ⟨s.data.map Char.toLower⟩

/-- A JSON object with string-or-null values, in insertion order. -/
abbrev Jdict := List (String × Option String)

/-- Python `dict.get(k)`: `none` when the key is missing or its value is
null. -/
def dictGet (d : Jdict) (k : String) : Option String :=
  match d.lookup k with
  | some v => v
  | none => none

/-- Python `d[k] = v`: replace the value in place, or append the key. -/
def dictSet (d : Jdict) (k : String) (v : Option String) : Jdict :=
  if d.any (fun kv => kv.1 == k) then
    d.map (fun kv => if kv.1 == k then (kv.1, v) else kv)
  else d ++ [(k, v)]

/-- Python truthiness of an `Optional[str]` (`None` and `""` are falsy). -/
def truthyO : Option String → Bool
  | some s => !s.isEmpty
  | none => false

/-- Python truthiness of a `str` (`""` is falsy). -/
def truthyS (s : String) : Bool := !s.isEmpty

/-- Python truthiness of an `Optional[dict]` (`None` and `{}` are falsy). -/
def truthyD : Option Jdict → Bool
  | some d => !d.isEmpty
  | none => false

/-- `EmployeDB` (the durable employee row), restricted to the columns the
registration workflow reads or writes.  The hashed password column is not
modelled: no modelled operation reads it back. -/
structure EmployeRow where
  idEmploye : Nat
  nom : String
  prenom : String
  employeeId : String
  email : String
  phone_number : Option String
  role : String
  idEntreprise : Nat
  idGroupe : Option Nat
  idPoste : Option Nat
deriving DecidableEq, Repr

/-- `EntrepriseDB`. -/
structure EntrepriseRow where
  idEntreprise : Nat
  nom : String
  contact_email : Option String
  adresse : Option String
deriving DecidableEq, Repr

/-- `GroupeDB`, restricted to the columns registration reads. -/
structure GroupeRow where
  idGroupe : Nat
  idEntreprise : Nat
  nom : String
deriving DecidableEq, Repr

/-- `PosteDB`. -/
structure PosteRow where
  idPoste : Nat
  nom : String
  idEntreprise : Nat
deriving DecidableEq, Repr

/-- `PendingRegistrationDB`.  `role_assigned` has the Python-side column
default `"employee"`, applied whenever a row is inserted without an explicit
value. -/
structure PendingRegRow where
  user_email : String
  personal_info_json : Option Jdict
  company_info_json : Option Jdict
  role_assigned : Option String
  expires_at : Nat
deriving DecidableEq, Repr

/-- `VerificationCodeDB`. -/
structure VerificationCodeRow where
  identifier : String
  code : String
  expires_at : Nat
deriving DecidableEq, Repr

/-- The relational store visible to the registration workflow, plus a
fresh-id counter standing in for `uuid4()`. -/
structure Db where
  employes : List EmployeRow
  entreprises : List EntrepriseRow
  groupes : List GroupeRow
  postes : List PosteRow
  pendings : List PendingRegRow
  codes : List VerificationCodeRow
  nextId : Nat
deriving DecidableEq, Repr

/-- Update the first row matching `p` (SQLAlchemy `.first()` then mutate). -/
def updateFirst (l : List α) (p : α → Bool) (f : α → α) : List α :=
  match l with
  | [] => []
  | x :: xs => if p x then f x :: xs else x :: updateFirst xs p f

/-! ### `EmployeRepository` (`app/repositories/employe_repository.py`) -/

/-- `get_employe_by_email`: first employee whose (lowercased at creation)
email equals the lowercased argument. -/
def get_employe_by_email (db : Db) (email : String) : Option EmployeRow :=
  db.employes.find? (fun e => e.email == (pyLower email))

/-- `get_employe_by_employee_id` (exact match, no normalization). -/
def get_employe_by_employee_id (db : Db) (employee_id : String) :
    Option EmployeRow :=
  db.employes.find? (fun e => e.employeeId == employee_id)

/-- `get_employe_by_phone_number`. -/
def get_employe_by_phone_number (db : Db) (phone : String) :
    Option EmployeRow :=
  db.employes.find? (fun e => e.phone_number == some phone)

/-- `get_groupe_by_id`. -/
def get_groupe_by_id (db : Db) (g : Nat) : Option GroupeRow :=
  db.groupes.find? (fun r => r.idGroupe == g)

/-- `get_poste_by_id`. -/
def get_poste_by_id (db : Db) (p : Nat) : Option PosteRow :=
  db.postes.find? (fun r => r.idPoste == p)

/-- `EntrepriseRepository.get_entreprise_by_id`. -/
def get_entreprise_by_id (db : Db) (e : Nat) : Option EntrepriseRow :=
  db.entreprises.find? (fun r => r.idEntreprise == e)

/-- `EntrepriseRepository.get_entreprise_by_name` (exact match). -/
def get_entreprise_by_name (db : Db) (nom : String) : Option EntrepriseRow :=
  db.entreprises.find? (fun r => r.nom == nom)

/-- `add_pending_registration`: upsert keyed by lowercased email — an
existing row gets `personal_info_json` and `expires_at` replaced (keeping
`company_info_json` and `role_assigned`); otherwise a fresh row is inserted,
whose `role_assigned` takes the column default `"employee"` and whose
`company_info_json` is NULL. -/
def add_pending_registration (db : Db) (user_email : String) (pinfo : Jdict)
    (expires : Nat) : Db :=
  match db.pendings.find? (fun r => r.user_email == (pyLower user_email)) with
  | some _ =>
    { db with pendings :=
        (updateFirst db.pendings (fun r => r.user_email == (pyLower user_email))
          (fun r => { r with personal_info_json := some pinfo,
                             expires_at := expires })) }
  | none =>
    { db with pendings :=
        db.pendings ++ [⟨(pyLower user_email), some pinfo, none,
          some "employee", expires⟩] }

/-- The view `get_pending_registration` builds from a row. -/
structure PendingView where
  personal_info_json : Option Jdict
  company_info_json : Option Jdict
  role_assigned : Option String
  expires_at : Nat
deriving DecidableEq, Repr

/-- `get_pending_registration`: returns the parsed row only when
`expires_at > now`, otherwise behaves as absent (no deletion on read). -/
def get_pending_registration (db : Db) (now : Nat) (email : String) :
    Option PendingView :=
  match db.pendings.find? (fun r => r.user_email == (pyLower email)) with
  | some p =>
    if now < p.expires_at then
      some ⟨p.personal_info_json, p.company_info_json, p.role_assigned,
        p.expires_at⟩
    else none
  | none => none

/-- The field selector of `update_pending_registration`. -/
inductive PendingField where
  | personal_info (d : Jdict)
  | company_info (d : Jdict)
  | role_assigned (v : String)

/-- `update_pending_registration`: sets one column of the first row for the
email; raises `ValueError` (modelled as `.error`) when no row exists.  The
expiry is not consulted here. -/
def update_pending_registration (db : Db) (email : String)
    (v : PendingField) : Except Unit Db :=
  match db.pendings.find? (fun r => r.user_email == (pyLower email)) with
  | none => .error ()
  | some _ =>
    .ok { db with pendings :=
      (updateFirst db.pendings (fun r => r.user_email == (pyLower email))
        (fun r =>
          match v with
          | .personal_info d => { r with personal_info_json := some d }
          | .company_info d => { r with company_info_json := some d }
          | .role_assigned s => { r with role_assigned := some s })) }

/-- `delete_pending_registration`: bulk delete of every row for the email
(idempotent). -/
def delete_pending_registration (db : Db) (email : String) : Db :=
  { db with pendings :=
      db.pendings.filter (fun r => !(r.user_email == (pyLower email))) }

/-- `set_verification_code`: upsert keyed by the lowercased identifier,
resetting code and expiry (`now + expires_in_minutes`). -/
def set_verification_code (db : Db) (now : Nat) (email code : String)
    (expires_in_minutes : Nat) : Db :=
  let identifier := (pyLower email)
  let expires := now + expires_in_minutes
  match db.codes.find? (fun r => r.identifier == identifier) with
  | some _ =>
    { db with codes :=
        (updateFirst db.codes (fun r => r.identifier == identifier)
          (fun r => { r with code := code, expires_at := expires })) }
  | none =>
    { db with codes := db.codes ++ [⟨identifier, code, expires⟩] }

/-- `get_verification_code`: the stored code, only while
`expires_at > now`; otherwise behaves as absent.  A pure read: it performs
no write. -/
def get_verification_code (db : Db) (now : Nat) (email : String) :
    Option String :=
  match db.codes.find? (fun r => r.identifier == (pyLower email)) with
  | some r => if now < r.expires_at then some r.code else none
  | none => none

/-- `delete_verification_code`: bulk delete for the identifier
(idempotent). -/
def delete_verification_code (db : Db) (email : String) : Db :=
  { db with codes :=
      db.codes.filter (fun r => !(r.identifier == (pyLower email))) }

/-- `cleanup_expired_entries`: bulk-deletes the pending registrations and
verification codes with `expires_at < now` (strict comparison in the
source). -/
def cleanup_expired_entries (db : Db) (now : Nat) : Db :=
  { db with
      pendings := db.pendings.filter (fun r => !(r.expires_at < now)),
      codes := db.codes.filter (fun r => !(r.expires_at < now)) }

/-! ## Error taxonomy

One constructor per distinct raise site reachable from the modelled
services.  `httpStatus` records the HTTP status code the source attaches to
each raise; `specClass` records the class the spec's §7 taxonomy assigns to
the raise's *condition* (the spec names classes by condition — e.g.
"NotFound (no pending record / no group / no employee)" — not by HTTP
number, and the two disagree for some raises). -/

inductive RegError where
  | emailRegistered          -- 400 "L'email est déjà enregistré"
  | employeeIdRegistered     -- 400 "L'ID d'employé est déjà enregistré"
  | codeAlreadySent          -- 429 "Un code a déjà été envoyé"
  | serverError              -- 500 generic handler of process_personal_info
  | codeNotFoundOrExpired    -- 400 "Code introuvable ou expiré"
  | codeIncorrect            -- 400 "Code incorrect"
  | pendingNotFound          -- 400 "Inscription introuvable"
  | noPendingState           -- 400 "Aucune inscription en cours"
  | pendingExpired           -- 400 "Inscription expirée ou introuvable"
  | emailNotVerified         -- 400 "Email non vérifié"
  | groupeNotFound           -- 404 "Groupe introuvable"
  | groupeRequiredForPoste   -- 400 "Groupe requis pour récupérer entreprise"
  | groupeRequired           -- 400 "Groupe requis pour employés non admin"
  | companyInfoRequired      -- 400 "Infos entreprise requises pour admin"
  | attributeError           -- Python AttributeError: PosteService has no
                             --   get_poste_by_name_and_company method
  | pendingUpdateMissing     -- ValueError from update_pending_registration
  | validationError          -- pydantic rejects a None role
  | notAdminForEntreprise    -- 403 "Seul un admin peut créer une entreprise."
  | entrepriseNameConflict   -- 409 "Entreprise ... existe déjà."
  | notAdminForPoste         -- 403 "Non autorisé à créer un poste."
  | posteNameConflict        -- 409 "Un poste avec ce nom existe déjà ..."
  | passwordForbidden        -- 403 "Seuls les admins ou managers ..."
  | phoneRegistered          -- 400 "Le numéro de téléphone est déjà enregistré"
  | companyIdOrNameRequired  -- 400 "idEntreprise ou companyName doit être fourni."
  | contactEmailRequired     -- 400 "companyContactEmail doit être fourni ..."
  | entrepriseNotFound       -- 404 "Entreprise non trouvée"
  | entrepriseForbidden      -- 403 cross-company access on get_entreprise
  | groupeInvalid            -- 400 "Groupe invalide ou non associé ..."
  | posteInvalid             -- 400 "Poste invalide ou non associé ..."
deriving DecidableEq, Repr

/-- The HTTP status the source attaches to each raise (500 for the Python
exceptions that escape to the framework handler). -/
def httpStatus : RegError → Nat
  | .emailRegistered => 400
  | .employeeIdRegistered => 400
  | .codeAlreadySent => 429
  | .serverError => 500
  | .codeNotFoundOrExpired => 400
  | .codeIncorrect => 400
  | .pendingNotFound => 400
  | .noPendingState => 400
  | .pendingExpired => 400
  | .emailNotVerified => 400
  | .groupeNotFound => 404
  | .groupeRequiredForPoste => 400
  | .groupeRequired => 400
  | .companyInfoRequired => 400
  | .attributeError => 500
  | .pendingUpdateMissing => 500
  | .validationError => 500
  | .notAdminForEntreprise => 403
  | .entrepriseNameConflict => 409
  | .notAdminForPoste => 403
  | .posteNameConflict => 409
  | .passwordForbidden => 403
  | .phoneRegistered => 400
  | .companyIdOrNameRequired => 400
  | .contactEmailRequired => 400
  | .entrepriseNotFound => 404
  | .entrepriseForbidden => 403
  | .groupeInvalid => 400
  | .posteInvalid => 400

/-- The spec's §7 error class for each raise's condition: Conflict =
duplicate email / employee-code / company name; RateLimited = code already
outstanding; NotFound = no pending record / no group / no employee;
BadRequest = wrong or expired code, missing required field; ServerError =
unexpected failure. -/
def specClass : RegError → String
  | .emailRegistered => "Conflict"
  | .employeeIdRegistered => "Conflict"
  | .entrepriseNameConflict => "Conflict"
  | .posteNameConflict => "Conflict"
  | .phoneRegistered => "Conflict"
  | .codeAlreadySent => "RateLimited"
  | .pendingNotFound => "NotFound"
  | .noPendingState => "NotFound"
  | .pendingExpired => "NotFound"
  | .groupeNotFound => "NotFound"
  | .entrepriseNotFound => "NotFound"
  | .codeNotFoundOrExpired => "BadRequest"
  | .codeIncorrect => "BadRequest"
  | .emailNotVerified => "BadRequest"
  | .groupeRequiredForPoste => "BadRequest"
  | .groupeRequired => "BadRequest"
  | .companyInfoRequired => "BadRequest"
  | .companyIdOrNameRequired => "BadRequest"
  | .contactEmailRequired => "BadRequest"
  | .groupeInvalid => "BadRequest"
  | .posteInvalid => "BadRequest"
  | .notAdminForEntreprise => "Unauthorized"
  | .notAdminForPoste => "Unauthorized"
  | .passwordForbidden => "Unauthorized"
  | .entrepriseForbidden => "Unauthorized"
  | .serverError => "ServerError"
  | .attributeError => "ServerError"
  | .pendingUpdateMissing => "ServerError"
  | .validationError => "ServerError"

instance {ε α : Type} [DecidableEq ε] [DecidableEq α] :
    DecidableEq (Except ε α) := fun x y =>
  match x, y with
  | .ok a, .ok b =>
    if h : a = b then .isTrue (congrArg Except.ok h)
    else .isFalse (fun hh => h (Except.ok.inj hh))
  | .error a, .error b =>
    if h : a = b then .isTrue (congrArg Except.error h)
    else .isFalse (fun hh => h (Except.error.inj hh))
  | .ok _, .error _ => .isFalse (fun hh => Except.noConfusion hh)
  | .error _, .ok _ => .isFalse (fun hh => Except.noConfusion hh)

/-! ## Request schemas (`app/schemas/schemas.py`) -/

/-- `PersonalInfo`. -/
structure PersonalInfo where
  userEmail : String
  lastName : String
  firstName : String
  position : Option String := none
  employeeId : String
  phoneNumber : Option String := none
  password : Option String := none
deriving DecidableEq, Repr

/-- `PersonalInfo.model_dump()`, in field order. -/
def dumpPersonal (p : PersonalInfo) : Jdict :=
  [("userEmail", some p.userEmail), ("lastName", some p.lastName),
   ("firstName", some p.firstName), ("position", p.position),
   ("employeeId", some p.employeeId), ("phoneNumber", p.phoneNumber),
   ("password", p.password)]

/-- `UserVerification`. -/
structure UserVerification where
  email : String
  code : String
deriving DecidableEq, Repr

/-- `FinalRegistrationData`. -/
structure FinalRegistrationData where
  lastName : String
  firstName : String
  employeeId : String
  userEmail : String
  position : Option String := none
  phoneNumber : Option String := none
  password : Option String := none
  companyName : String
  companyContactEmail : String
  idGroupe : Option Nat := none
  adresse : Option String := none
deriving DecidableEq, Repr

/-- `EmployeCreate` (the fields `complete_registration` populates). -/
structure EmployeCreate where
  nom : String
  prenom : String
  employeeId : String
  email : String
  phone_number : Option String
  motDePasse : Option String
  role : String
  companyName : Option String
  companyContactEmail : Option String
  idEntreprise : Option Nat
  idGroupe : Option Nat
  idPoste : Option Nat
deriving DecidableEq, Repr

/-- `MessageResponse` (`expires_at` kept as a time rather than an ISO
string). -/
structure MessageResponse where
  message : String
  expires_at : Option Nat
deriving DecidableEq, Repr

/-! ## Collaborating services -/

/-- `EntrepriseService.create_entreprise`: only an admin may create; fails
on a duplicate company name (exact match); otherwise inserts a fresh row.
`cuRole` is `current_user.role`. -/
def create_entreprise (db : Db) (nom : String)
    (contact_email : Option String) (adresse : Option String)
    (cuRole : String) : Except RegError EntrepriseRow × Db :=
  if !(cuRole == "admin") then (.error .notAdminForEntreprise, db)
  else if (get_entreprise_by_name db nom).isSome then
    (.error .entrepriseNameConflict, db)
  else
    let e : EntrepriseRow := ⟨db.nextId, nom, contact_email, adresse⟩
    (.ok e, { db with entreprises := db.entreprises ++ [e],
                      nextId := db.nextId + 1 })

/-- `PosteService.create_poste`: only "admin" or "super-admin"; fails on a
duplicate name within the company; otherwise inserts a fresh row. -/
def create_poste (db : Db) (nom : String) (idEntreprise : Nat)
    (cuRole : String) : Except RegError PosteRow × Db :=
  if !(cuRole == "admin" || cuRole == "super-admin") then
    (.error .notAdminForPoste, db)
  else if (db.postes.find? (fun p =>
      p.nom == nom && p.idEntreprise == idEntreprise)).isSome then
    (.error .posteNameConflict, db)
  else
    let p : PosteRow := ⟨db.nextId, nom, idEntreprise⟩
    (.ok p, { db with postes := db.postes ++ [p], nextId := db.nextId + 1 })

/-- `EntrepriseService.get_entreprise`: 404 when absent; 403 when the
current user belongs to a different company (skipped when
`current_user.idEntreprise` is `None`, as it is for the temporary users the
registration flow builds). -/
def get_entreprise (db : Db) (idEntreprise : Nat)
    (cuIdEntreprise : Option Nat) : Except RegError EntrepriseRow :=
  match get_entreprise_by_id db idEntreprise with
  | none => .error .entrepriseNotFound
  | some e =>
    if cuIdEntreprise.isSome && !(cuIdEntreprise == some idEntreprise) then
      .error .entrepriseForbidden
    else .ok e

/-- The groupe/poste consistency checks and the insert of
`EmployeService.create_employe`, after the target company is resolved.
The hashed password (supplied or generated) is not stored in the model; the
notification push at the end absorbs every exception and has no effect on
the relational state.  The insert also upserts the pending-registration row
of the new employee's email to the fingerprint-pending marker with a
1440-minute expiry. -/
def create_employe_insert (db : Db) (now : Nat) (ec : EmployeCreate)
    (ent : EntrepriseRow) : Except RegError EmployeRow × Db :=
  let groupeRes : Except RegError (Option GroupeRow) :=
    match ec.idGroupe with
    | none => .ok none
    | some g =>
      match get_groupe_by_id db g with
      | some gr =>
        if gr.idEntreprise == ent.idEntreprise then .ok (some gr)
        else .error .groupeInvalid
      | none => .error .groupeInvalid
  match groupeRes with
  | .error e => (.error e, db)
  | .ok groupe =>
    let posteRes : Except RegError (Option PosteRow) :=
      match ec.idPoste with
      | none => .ok none
      | some p =>
        match get_poste_by_id db p with
        | some po =>
          if po.idEntreprise == ent.idEntreprise then .ok (some po)
          else .error .posteInvalid
        | none => .error .posteInvalid
    match posteRes with
    | .error e => (.error e, db)
    | .ok poste =>
      let emp : EmployeRow :=
        { idEmploye := db.nextId, nom := ec.nom, prenom := ec.prenom,
          employeeId := ec.employeeId, email := (pyLower ec.email),
          phone_number := ec.phone_number, role := ec.role,
          idEntreprise := ent.idEntreprise,
          idGroupe := groupe.map (fun g => g.idGroupe),
          idPoste := poste.map (fun p => p.idPoste) }
      let db1 := { db with employes := db.employes ++ [emp],
                           nextId := db.nextId + 1 }
      let db2 := add_pending_registration db1 emp.email
        [("status", some "pending_fingerprint_validation")] (now + 1440)
      (.ok emp, db2)

/-- `EmployeService.create_employe`: permission and uniqueness guards, then
company resolution (by id, or by creating one from `companyName`), then the
consistency checks and insert. -/
def create_employe (db : Db) (now : Nat) (ec : EmployeCreate)
    (cuRole : String) (cuIdEntreprise : Option Nat) :
    Except RegError EmployeRow × Db :=
  if truthyO ec.motDePasse && !(cuRole == "admin" || cuRole == "manager") then
    (.error .passwordForbidden, db)
  else if (get_employe_by_email db (pyLower ec.email)).isSome then
    (.error .emailRegistered, db)
  else if (get_employe_by_employee_id db ec.employeeId).isSome then
    (.error .employeeIdRegistered, db)
  else if truthyO ec.phone_number &&
      (get_employe_by_phone_number db (ec.phone_number.getD "")).isSome then
    (.error .phoneRegistered, db)
  else if !ec.idEntreprise.isSome && !(truthyO ec.companyName) then
    (.error .companyIdOrNameRequired, db)
  else if truthyO ec.companyName && !(truthyO ec.companyContactEmail) then
    (.error .contactEmailRequired, db)
  else
    match ec.idEntreprise with
    | some idE =>
      match get_entreprise db idE cuIdEntreprise with
      | .error e => (.error e, db)
      | .ok ent =>
        -- create_employe re-checks current_user.idEntreprise against the
        -- target id; with the same condition get_entreprise just checked.
        if cuIdEntreprise.isSome && !(cuIdEntreprise == some idE) then
          (.error .entrepriseForbidden, db)
        else create_employe_insert db now ec ent
    | none =>
      match create_entreprise db (ec.companyName.getD "")
          (some (pyLower (ec.companyContactEmail.getD ""))) none cuRole with
      | (.error e, db1) => (.error e, db1)
      | (.ok ent, db1) => create_employe_insert db1 now ec ent

/-! ## Registration state machine (`app/services/registration_service.py`) -/

/-- `RegistrationService.process_personal_info`: Conflict-style guards on
durable duplicates, RateLimited guard on an outstanding code, then stores
the code (TTL 4 min) and the pending registration and sends the email.
`genCode` is the freshly generated `secrets.token_hex(3)`; `emailOk` is
whether the SMTP send succeeds — a failure surfaces as the generic 500
handler with the code and pending record already committed. -/
def process_personal_info (db : Db) (now : Nat) (genCode : String)
    (emailOk : Bool) (p : PersonalInfo) :
    Except RegError MessageResponse × Db :=
  if (get_employe_by_email db p.userEmail).isSome then
    (.error .emailRegistered, db)
  else if (get_employe_by_employee_id db p.employeeId).isSome then
    (.error .employeeIdRegistered, db)
  else if (get_verification_code db now p.userEmail).isSome then
    (.error .codeAlreadySent, db)
  else
    let expires_at := now + 4
    let db1 := set_verification_code db now p.userEmail genCode 4
    let db2 := add_pending_registration db1 p.userEmail (dumpPersonal p)
      expires_at
    if emailOk then
      (.ok ⟨"Code envoye a " ++ p.userEmail, some expires_at⟩, db2)
    else (.error .serverError, db2)

/-- `RegistrationService.verify_user_email`: requires a live code, an exact
code match and a live pending record; only then deletes the code and tags
`personal_info.status = "email_verified"`. -/
def verify_user_email (db : Db) (now : Nat) (v : UserVerification) :
    Except RegError MessageResponse × Db :=
  match get_verification_code db now v.email with
  | none => (.error .codeNotFoundOrExpired, db)
  | some stored_code =>
    if !(stored_code == v.code) then (.error .codeIncorrect, db)
    else
      match get_pending_registration db now v.email with
      | none => (.error .pendingNotFound, db)
      | some pending =>
        let db1 := delete_verification_code db v.email
        -- `current_info = {}` unless personal_info_json is a truthy dict;
        -- an empty dict and `{}` coincide, so `getD []` is exact.
        let current_info := pending.personal_info_json.getD []
        let info2 := dictSet current_info "status" (some "email_verified")
        match update_pending_registration db1 v.email
            (.personal_info info2) with
        | .error _ => (.error .pendingUpdateMissing, db1)
        | .ok db2 =>
          (.ok ⟨"Email verifie, veuillez fournir les informations de l entreprise.",
            some pending.expires_at⟩, db2)

/-- The poste-resolution block at the top of `complete_registration`
(lines 158-189).  For a truthy `position`: the admin path defers poste
creation; the non-admin path resolves the company via the group and then
calls `self.poste_service.get_poste_by_name_and_company`, a method
`PosteService` does not define, so Python raises `AttributeError` before
any mutation.  `poste_id` is therefore always `None` when this block
returns normally. -/
def resolve_poste_initial (db : Db) (data : FinalRegistrationData)
    (role_assigned : Option String) : Except RegError Unit :=
  if truthyO data.position then
    if role_assigned == some "admin" then .ok ()
    else
      match data.idGroupe with
      | some g =>
        match get_groupe_by_id db g with
        | none => .error .groupeNotFound
        | some _ => .error .attributeError
      | none => .error .groupeRequiredForPoste
  else .ok ()

/-- The admin arm of `complete_registration` (lines 202-224): requires
truthy company name and contact email, creates the company (contact email
lowercased) as an admin, then — when a truthy position was supplied and no
poste was created earlier — creates the poste scoped to the new company.
Returns the resolved (idEntreprise, idGroupe, idPoste). -/
def admin_company_phase (db : Db) (data : FinalRegistrationData) :
    Except RegError (Nat × Option Nat × Option Nat) × Db :=
  if !(truthyS data.companyName) || !(truthyS data.companyContactEmail) then
    (.error .companyInfoRequired, db)
  else
    match create_entreprise db data.companyName
        (some (pyLower data.companyContactEmail)) data.adresse "admin" with
    | (.error e, db1) => (.error e, db1)
    | (.ok ent, db1) =>
      if truthyO data.position then
        match create_poste db1 (data.position.getD "") ent.idEntreprise
            "admin" with
        | (.error e, db2) => (.error e, db2)
        | (.ok poste, db2) =>
          (.ok (ent.idEntreprise, none, some poste.idPoste), db2)
      else (.ok (ent.idEntreprise, none, none), db1)

/-- The non-admin arm of `complete_registration` (lines 226-233): requires
a group id, resolves it, and inherits its company. -/
def employee_company_phase (db : Db) (data : FinalRegistrationData) :
    Except RegError (Nat × Option Nat × Option Nat) :=
  match data.idGroupe with
  | none => .error .groupeRequired
  | some g =>
    match get_groupe_by_id db g with
    | none => .error .groupeNotFound
    | some groupe => .ok (groupe.idEntreprise, some groupe.idGroupe, none)

/-- `RegistrationService.complete_registration`: guards (live pending
record, status `email_verified`), the poste-resolution block, the
admin/non-admin company phase, the `EmployeCreate` assembly
(`motDePasse := password if truthy else None`, role from
`pending.get("role_assigned", "employee")` — the key is always present, so
a NULL column value would reach pydantic as `None` and be rejected), the
durable insert via `create_employe`, and finally the replacement of the
pending registration by a fresh fingerprint-pending marker with a 24-hour
(1440-minute) TTL. -/
def complete_registration (db : Db) (now : Nat)
    (data : FinalRegistrationData) : Except RegError EmployeRow × Db :=
  match get_pending_registration db now data.userEmail with
  | none => (.error .pendingExpired, db)
  | some pending =>
    if !(truthyD pending.personal_info_json &&
        (dictGet (pending.personal_info_json.getD []) "status"
          == some "email_verified")) then
      (.error .emailNotVerified, db)
    else
      match resolve_poste_initial db data pending.role_assigned with
      | .error e => (.error e, db)
      | .ok _ =>
        match pending.role_assigned with
        | none => (.error .validationError, db)
        | some role =>
          let phase : Except RegError (Nat × Option Nat × Option Nat) × Db :=
            if pending.role_assigned == some "admin" then
              admin_company_phase db data
            else (employee_company_phase db data, db)
          match phase with
          | (.error e, db1) => (.error e, db1)
          | (.ok (idE, idG, idP), db1) =>
            let ec : EmployeCreate :=
              { nom := data.lastName, prenom := data.firstName,
                employeeId := data.employeeId, email := data.userEmail,
                phone_number := data.phoneNumber,
                motDePasse :=
                  if truthyO data.password then data.password else none,
                role := role, companyName := none,
                companyContactEmail := none, idEntreprise := some idE,
                idGroupe := idG, idPoste := idP }
            match create_employe db1 now ec role none with
            | (.error e, db2) => (.error e, db2)
            | (.ok emp, db2) =>
              let db3 := delete_pending_registration db2 data.userEmail
              let db4 := add_pending_registration db3 data.userEmail
                [("status", some "pending_fingerprint_validation")]
                (now + 1440)
              (.ok emp, db4)

/-- The record `get_pending_state` returns. -/
structure PendingStateResponse where
  step : String
  user_email : String
  personal_info : Option Jdict
  company_info : Option Jdict
  role : Option String
  expires_at : Nat
deriving DecidableEq, Repr

/-- `RegistrationService.get_pending_state`: read-only; derives `step` by a
sequence of overriding `if`s; raises 400 "Aucune inscription en cours" when
no live pending record exists.  The final condition evaluates
`pending.get("personal_info_json", {}).get("status")` — the key is always
present in the view, so a NULL column value would reach `None.get` and
raise `AttributeError` at that line. -/
def get_pending_state (db : Db) (now : Nat) (email : String) :
    Except RegError PendingStateResponse × Db :=
  match get_pending_registration db now email with
  | none => (.error .noPendingState, db)
  | some pending =>
    let step := "personal_info"
    let step := if truthyD pending.personal_info_json &&
        (dictGet (pending.personal_info_json.getD []) "status"
          == some "email_verified") then "company_info" else step
    let step := if truthyD pending.company_info_json then "verify_company"
      else step
    let step := if pending.role_assigned == some "admin" then "final"
      else step
    match pending.personal_info_json with
    | none => (.error .attributeError, db)
    | some d =>
      let step := if dictGet d "status" == some "pending_fingerprint_validation"
        then "fingerprint_validation" else step
      (.ok { step := step, user_email := email,
             personal_info := pending.personal_info_json,
             company_info := pending.company_info_json,
             role := pending.role_assigned,
             expires_at := pending.expires_at }, db)

/-! ## Helper lemmas about the pending store -/

/-- The fingerprint-pending marker dict `{"status": "pending_fingerprint_validation"}`. -/
def fpDict : Jdict := [("status", some "pending_fingerprint_validation")]

theorem find?_filter_not {α : Type} (l : List α) (p : α → Bool) :
    (l.filter (fun x => !(p x))).find? p = none := by
  rw [List.find?_eq_none]
  intro x hx
  have := (List.mem_filter.mp hx).2
  simp at this
  simp [this]

/-- After `delete_pending_registration` then `add_pending_registration`, the
lookup for the email finds exactly the fresh row. -/
theorem find?_pending_after_replace (db : Db) (email : String)
    (pinfo : Jdict) (t : Nat) :
    (add_pending_registration (delete_pending_registration db email) email
        pinfo t).pendings.find? (fun r => r.user_email == (pyLower email)) =
      some ⟨(pyLower email), some pinfo, none, some "employee", t⟩ := by
  have hnone : (delete_pending_registration db email).pendings.find?
      (fun r => r.user_email == (pyLower email)) = none :=
    find?_filter_not db.pendings (fun r => r.user_email == (pyLower email))
  unfold add_pending_registration
  rw [hnone]
  simp only [List.find?_append, hnone, Option.none_or]
  simp [List.find?]

/-- The replacement row is returned by `get_pending_registration` at any
time before its expiry. -/
theorem get_pending_after_replace (db : Db) (email : String) (pinfo : Jdict)
    (t now2 : Nat) (h : now2 < t) :
    get_pending_registration (add_pending_registration
        (delete_pending_registration db email) email pinfo t) now2 email =
      some ⟨some pinfo, none, some "employee", t⟩ := by
  unfold get_pending_registration
  rw [find?_pending_after_replace]
  simp [h]

/-! ## Claim C1 -/

/-- C1: a successful `complete_registration` replaces the pending
registration with a fresh row whose `personal_info` is exactly
`{"status": "pending_fingerprint_validation"}`, whose `company_info` is
NULL, and whose expiry is 24 hours (1440 minutes) after completion; a
subsequent `get_pending_state` before that expiry reports
step = "fingerprint_validation" with no company info and no field of the
old record left on the new one. -/
theorem C1_complete_registration_resets_pending (db : Db) (now : Nat)
    (data : FinalRegistrationData) (emp : EmployeRow) (db' : Db)
    (h : complete_registration db now data = (.ok emp, db')) :
    db'.pendings.find? (fun r => r.user_email == (pyLower data.userEmail)) =
      some ⟨(pyLower data.userEmail), some fpDict, none, some "employee",
        now + 1440⟩ ∧
    ∀ now2, now2 < now + 1440 →
      (get_pending_state db' now2 data.userEmail).1 =
        .ok ⟨"fingerprint_validation", data.userEmail, some fpDict, none,
          some "employee", now + 1440⟩ := by
  have hform : ∃ db2, db' = add_pending_registration
      (delete_pending_registration db2 data.userEmail) data.userEmail
      fpDict (now + 1440) := by
    unfold complete_registration at h
    split at h
    · simp at h
    · split at h
      · simp at h
      · split at h
        · simp at h
        · split at h
          · simp at h
          · simp only [] at h
            repeat' split at h
            all_goals simp only [Prod.mk.injEq] at h
            all_goals first
              | exact ⟨_, h.2.symm⟩
              | cases h.1
  obtain ⟨db2, hdb⟩ := hform
  subst hdb
  refine ⟨find?_pending_after_replace db2 data.userEmail fpDict (now + 1440),
    fun now2 h2 => ?_⟩
  unfold get_pending_state
  rw [get_pending_after_replace db2 data.userEmail fpDict (now + 1440) now2 h2]
  simp [fpDict, dictGet, truthyD]

/-- Concrete starting state for the C1 witness: an email-verified pending
registration with role "admin" and no durable rows. -/
def dbC1 : Db :=
  ⟨[], [], [], [],
   [⟨"a@x.com", some [("status", some "email_verified")], none, some "admin",
     10⟩], [], 100⟩

/-- Concrete final payload for the C1 witness. -/
def fdC1 : FinalRegistrationData :=
  { lastName := "D", firstName := "N", employeeId := "E1",
    userEmail := "a@x.com", companyName := "Acme",
    companyContactEmail := "B@co.com" }

/-- The employee `complete_registration dbC1 3 fdC1` creates. -/
def empC1 : EmployeRow :=
  ⟨101, "D", "N", "E1", "a@x.com", none, "admin", 100, none, none⟩

/-- The state `complete_registration dbC1 3 fdC1` leaves. -/
def dbC1' : Db :=
  ⟨[empC1], [⟨100, "Acme", some "b@co.com", none⟩], [], [],
   [⟨"a@x.com", some fpDict, none, some "employee", 1443⟩], [], 102⟩

/-- Witness for C1 at a concrete input. -/
theorem C1_complete_registration_resets_pending_witness :
    complete_registration dbC1 3 fdC1 = (.ok empC1, dbC1') ∧
    dbC1'.pendings.find? (fun r => r.user_email == (pyLower fdC1.userEmail)) =
      some ⟨(pyLower fdC1.userEmail), some fpDict, none, some "employee",
        3 + 1440⟩ ∧
    (get_pending_state dbC1' 100 fdC1.userEmail).1 =
      .ok ⟨"fingerprint_validation", fdC1.userEmail, some fpDict, none,
        some "employee", 3 + 1440⟩ := by
  have h : complete_registration dbC1 3 fdC1 = (.ok empC1, dbC1') := by decide
  have h2 := C1_complete_registration_resets_pending dbC1 3 fdC1 empC1 dbC1' h
  exact ⟨h, h2.1, h2.2 100 (by decide)⟩

/-! ## Claim C2 -/

/-- The claim's step derivation, written as the spec states it: a fixed
priority order pending_fingerprint_validation > role admin > company info
present > personal status email_verified > default. -/
def claimStep (p : PendingView) : String :=
  if dictGet (p.personal_info_json.getD []) "status"
      == some "pending_fingerprint_validation" then "fingerprint_validation"
  else if p.role_assigned == some "admin" then "final"
  else if truthyD p.company_info_json then "verify_company"
  else if truthyD p.personal_info_json &&
      (dictGet (p.personal_info_json.getD []) "status"
        == some "email_verified") then "company_info"
  else "personal_info"

/-- C2: `get_pending_state` is a read-only derivation of the step label in
the claimed priority order (the code's sequence of overriding `if`s is
equivalent to it), and it fails with the no-pending-record error — the
condition §7 of the spec classes as NotFound, raised with HTTP 400 — when
no non-expired pending record exists.  The step equation is stated for
records whose `personal_info_json` column is non-NULL, which every write
path guarantees (a NULL one would make the Python code raise
`AttributeError`, see `get_pending_state`). -/
theorem C2_get_pending_state_spec (db : Db) (now : Nat) (email : String) :
    (get_pending_state db now email).2 = db ∧
    (get_pending_registration db now email = none →
      (get_pending_state db now email).1 = .error .noPendingState ∧
      specClass .noPendingState = "NotFound" ∧
      httpStatus .noPendingState = 400) ∧
    (∀ pending d, get_pending_registration db now email = some pending →
      pending.personal_info_json = some d →
      (get_pending_state db now email).1 =
        .ok ⟨claimStep pending, email, pending.personal_info_json,
          pending.company_info_json, pending.role_assigned,
          pending.expires_at⟩) := by
  refine ⟨?_, ?_, ?_⟩
  · unfold get_pending_state
    split
    · rfl
    · repeat' split
      all_goals rfl
  · intro h
    unfold get_pending_state
    rw [h]
    exact ⟨rfl, rfl, rfl⟩
  · intro pending d hpend hd
    -- after ζ-reduction the code's sequence of overriding ifs is literally
    -- the claimed priority chain read bottom-up
    simp only [get_pending_state, hpend, hd, claimStep, Option.getD_some]

/-- Concrete state for the C2 witness: a pending row with verified email,
company info present and no admin role. -/
def dbC2 : Db :=
  ⟨[], [], [], [],
   [⟨"a@x.com", some [("status", some "email_verified")],
     some [("companyName", some "Acme")], some "employee", 9⟩], [], 0⟩

/-- Witness for C2: the step resolves to "verify_company" for the stored
record, and an unknown email gets the no-pending-record error. -/
theorem C2_get_pending_state_spec_witness :
    (get_pending_state dbC2 5 "a@x.com").1 =
      .ok ⟨"verify_company", "a@x.com", some [("status", some "email_verified")],
        some [("companyName", some "Acme")], some "employee", 9⟩ ∧
    (get_pending_state dbC2 5 "b@x.com").1 = .error .noPendingState := by
  have h := C2_get_pending_state_spec dbC2 5 "a@x.com"
  have h' := C2_get_pending_state_spec dbC2 5 "b@x.com"
  refine ⟨?_, (h'.2.1 (by decide)).1⟩
  have h2 := h.2.2
    ⟨some [("status", some "email_verified")],
     some [("companyName", some "Acme")], some "employee", 9⟩
    [("status", some "email_verified")] (by decide) rfl
  exact h2.trans (by decide)

/-! ## Claim C4 -/

/-- C4: `process_personal_info` fails with the duplicate-email /
duplicate-employee-code errors (the conditions §7 classes as Conflict) when
a durable employee already holds them, fails with the outstanding-code
error (RateLimited) while a non-expired verification code exists for the
email, and succeeds for an identical call once the stored code's TTL has
elapsed (given no durable duplicate and a successful email send). -/
theorem C4_submit_personal_info_guards (db : Db) (now : Nat)
    (genCode : String) (p : PersonalInfo) :
    ((get_employe_by_email db p.userEmail).isSome = true →
      ∀ emailOk, process_personal_info db now genCode emailOk p =
        (.error .emailRegistered, db) ∧
        specClass .emailRegistered = "Conflict") ∧
    (get_employe_by_email db p.userEmail = none →
      (get_employe_by_employee_id db p.employeeId).isSome = true →
      ∀ emailOk, process_personal_info db now genCode emailOk p =
        (.error .employeeIdRegistered, db) ∧
        specClass .employeeIdRegistered = "Conflict") ∧
    (get_employe_by_email db p.userEmail = none →
      get_employe_by_employee_id db p.employeeId = none →
      (get_verification_code db now p.userEmail).isSome = true →
      ∀ emailOk, process_personal_info db now genCode emailOk p =
        (.error .codeAlreadySent, db) ∧
        specClass .codeAlreadySent = "RateLimited") ∧
    (∀ row, get_employe_by_email db p.userEmail = none →
      get_employe_by_employee_id db p.employeeId = none →
      db.codes.find? (fun r => r.identifier == pyLower p.userEmail) =
        some row →
      row.expires_at ≤ now →
      (process_personal_info db now genCode true p).1 =
        .ok ⟨"Code envoye a " ++ p.userEmail, some (now + 4)⟩) := by
  refine ⟨?_, ?_, ?_, ?_⟩
  · intro h emailOk
    exact ⟨by simp [process_personal_info, h], rfl⟩
  · intro h1 h2 emailOk
    exact ⟨by simp [process_personal_info, h1, h2], rfl⟩
  · intro h1 h2 h3 emailOk
    exact ⟨by simp [process_personal_info, h1, h2, h3], rfl⟩
  · intro row h1 h2 hrow hle
    have hnone : get_verification_code db now p.userEmail = none := by
      simp only [get_verification_code, hrow]
      simp [Nat.not_lt.mpr hle]
    simp [process_personal_info, h1, h2, hnone]

/-- Concrete state for the C4 witness: an employee owning one email and one
employee code, and a verification code for a second email expiring at 10. -/
def dbC4 : Db :=
  ⟨[⟨1, "X", "Y", "E9", "t@x.com", some "0600", "employee", 1, none, none⟩],
   [], [], [], [], [⟨"c@x.com", "abc", 10⟩], 2⟩

/-- Witness for C4: the duplicate-email, duplicate-code, rate-limited and
TTL-elapsed-success cases at concrete inputs. -/
theorem C4_submit_personal_info_guards_witness :
    process_personal_info dbC4 5 "g1" true
        ⟨"T@x.com", "L", "F", none, "E0", none, none⟩ =
      (.error .emailRegistered, dbC4) ∧
    process_personal_info dbC4 5 "g1" true
        ⟨"n@x.com", "L", "F", none, "E9", none, none⟩ =
      (.error .employeeIdRegistered, dbC4) ∧
    process_personal_info dbC4 5 "g1" true
        ⟨"c@x.com", "L", "F", none, "E0", none, none⟩ =
      (.error .codeAlreadySent, dbC4) ∧
    (process_personal_info dbC4 10 "g1" true
        ⟨"c@x.com", "L", "F", none, "E0", none, none⟩).1 =
      .ok ⟨"Code envoye a c@x.com", some 14⟩ := by
  refine ⟨?_, ?_, ?_, ?_⟩
  · exact ((C4_submit_personal_info_guards dbC4 5 "g1"
      ⟨"T@x.com", "L", "F", none, "E0", none, none⟩).1 (by decide) true).1
  · exact ((C4_submit_personal_info_guards dbC4 5 "g1"
      ⟨"n@x.com", "L", "F", none, "E9", none, none⟩).2.1 (by decide)
      (by decide) true).1
  · exact ((C4_submit_personal_info_guards dbC4 5 "g1"
      ⟨"c@x.com", "L", "F", none, "E0", none, none⟩).2.2.1 (by decide)
      (by decide) (by decide) true).1
  · exact (C4_submit_personal_info_guards dbC4 10 "g1"
      ⟨"c@x.com", "L", "F", none, "E0", none, none⟩).2.2.2
      ⟨"c@x.com", "abc", 10⟩ (by decide) (by decide) (by decide) (by decide)

/-! ## Claim C5 -/

/-- C5: with a live code and a live pending registration, a
`verify_user_email` call carrying a code different from the stored one
fails with the wrong-code error (BadRequest, HTTP 400) and leaves the
entire store — in particular the stored code and the pending status —
unchanged: the raise happens before any write. -/
theorem C5_verify_wrong_code_atomic (db : Db) (now : Nat)
    (email given stored : String)
    (hc : get_verification_code db now email = some stored)
    (hp : (get_pending_registration db now email).isSome = true)
    (hne : stored ≠ given) :
    verify_user_email db now ⟨email, given⟩ = (.error .codeIncorrect, db) ∧
      httpStatus .codeIncorrect = 400 ∧
      specClass .codeIncorrect = "BadRequest" := by
  refine ⟨?_, rfl, rfl⟩
  have hbeq : (stored == given) = false := by simpa using hne
  simp [verify_user_email, hc, hbeq]

/-- Concrete state for the C5 witness. -/
def dbC5 : Db :=
  ⟨[], [], [], [],
   [⟨"a@x.com", some [("status", some "email_verified")], none,
     some "employee", 10⟩], [⟨"a@x.com", "abc", 10⟩], 0⟩

/-- Witness for C5 at a concrete input. -/
theorem C5_verify_wrong_code_atomic_witness :
    verify_user_email dbC5 5 ⟨"a@x.com", "zzz"⟩ =
      (.error .codeIncorrect, dbC5) :=
  (C5_verify_wrong_code_atomic dbC5 5 "a@x.com" "zzz" "abc" (by decide)
    (by decide) (by decide)).1

/-! ## Claim C6 -/

/-- C6: `get_verification_code` returns the stored code iff the current
time is strictly before the entry's expiry, behaves exactly as absent
otherwise, and — being a pure query — performs no write (its type returns
no new store). -/
theorem C6_get_verification_code_window (db : Db) (now : Nat)
    (email : String) :
    (∀ row, db.codes.find? (fun r => r.identifier == pyLower email) =
        some row →
      get_verification_code db now email =
        (if now < row.expires_at then some row.code else none) ∧
      (get_verification_code db now email = some row.code ↔
        now < row.expires_at)) ∧
    (db.codes.find? (fun r => r.identifier == pyLower email) = none →
      get_verification_code db now email = none) := by
  constructor
  · intro row hrow
    constructor
    · simp only [get_verification_code, hrow]
    · simp only [get_verification_code, hrow]
      by_cases hlt : now < row.expires_at
      · simp [hlt]
      · simp [hlt]
  · intro h
    simp only [get_verification_code, h]

/-- Concrete state for the C6 witness. -/
def dbC6 : Db := ⟨[], [], [], [], [], [⟨"a@x.com", "abc", 10⟩], 0⟩

/-- Witness for C6: the code is visible strictly before its expiry and
absent at the expiry instant. -/
theorem C6_get_verification_code_window_witness :
    get_verification_code dbC6 9 "A@x.com" = some "abc" ∧
    get_verification_code dbC6 10 "A@x.com" = none := by
  have h9 := (C6_get_verification_code_window dbC6 9 "A@x.com").1
    ⟨"a@x.com", "abc", 10⟩ (by decide)
  have h10 := (C6_get_verification_code_window dbC6 10 "A@x.com").1
    ⟨"a@x.com", "abc", 10⟩ (by decide)
  exact ⟨h9.2.mpr (by decide), by simpa using h10.1⟩

/-! ## Claim C7 -/

/-- Concrete state for C7: one pending registration and one verification
code, both with `expires_at = 5`. -/
def dbC7 : Db :=
  ⟨[], [], [], [],
   [⟨"p@x.com", some [("status", some "x")], none, some "employee", 5⟩],
   [⟨"a@x.com", "c", 5⟩], 0⟩

/-- C7 counterexample: at `now = 5` both entries satisfy
`expires_at <= now`, yet the sweep — whose SQL filter is the strict
`expires_at < now` — deletes neither. -/
theorem C7_counterexample :
    dbC7.codes = [⟨"a@x.com", "c", 5⟩] ∧
    dbC7.pendings =
      [⟨"p@x.com", some [("status", some "x")], none, some "employee", 5⟩] ∧
    cleanup_expired_entries dbC7 5 = dbC7 := by decide

/-- C7 (amended): `cleanup_expired_entries` bulk-deletes exactly the
verification-code and pending-registration entries with
`expires_at < now` (strictly earlier), and leaves every entry with
`expires_at >= now` untouched. -/
theorem C7_cleanup_deletes_strictly_expired (db : Db) (now : Nat) :
    (cleanup_expired_entries db now).codes =
      db.codes.filter (fun r => !(r.expires_at < now)) ∧
    (cleanup_expired_entries db now).pendings =
      db.pendings.filter (fun r => !(r.expires_at < now)) ∧
    (∀ r ∈ db.codes, now ≤ r.expires_at →
      r ∈ (cleanup_expired_entries db now).codes) ∧
    (∀ r ∈ db.pendings, now ≤ r.expires_at →
      r ∈ (cleanup_expired_entries db now).pendings) := by
  refine ⟨rfl, rfl, ?_, ?_⟩
  · intro r hr hle
    exact List.mem_filter.mpr ⟨hr, by simpa [Nat.not_lt] using hle⟩
  · intro r hr hle
    exact List.mem_filter.mpr ⟨hr, by simpa [Nat.not_lt] using hle⟩

/-- Witness for the amended C7: sweeping at 6 removes the entries expired
at 5; sweeping at 5 keeps them. -/
theorem C7_cleanup_deletes_strictly_expired_witness :
    (cleanup_expired_entries dbC7 6).codes = [] ∧
    (⟨"a@x.com", "c", 5⟩ : VerificationCodeRow) ∈
      (cleanup_expired_entries dbC7 5).codes := by
  have h6 := C7_cleanup_deletes_strictly_expired dbC7 6
  have h5 := C7_cleanup_deletes_strictly_expired dbC7 5
  refine ⟨?_, h5.2.2.1 ⟨"a@x.com", "c", 5⟩ (by decide) (by decide)⟩
  rw [h6.1]
  decide

/-! ## Claim C9 -/

/-- C9 (implicit): calling `verify_user_email` with the correct stored code
for an email that has a live code but no pending registration fails with
the registration-not-found error (HTTP 400 BadRequest) and does not delete
the code — the pending-record check sits after the code match but before
the code is consumed, so the matching code stays stored and usable until
its expiry. -/
theorem C9_verify_correct_code_no_pending (db : Db) (now : Nat)
    (email : String) (row : VerificationCodeRow)
    (hrow : db.codes.find? (fun r => r.identifier == pyLower email) =
      some row)
    (hlive : now < row.expires_at)
    (hnopending : get_pending_registration db now email = none) :
    verify_user_email db now ⟨email, row.code⟩ =
      (.error .pendingNotFound, db) ∧
    httpStatus .pendingNotFound = 400 ∧
    (∀ t, t < row.expires_at → get_verification_code db t email =
      some row.code) := by
  have hget : get_verification_code db now email = some row.code := by
    simp only [get_verification_code, hrow]
    simp [hlive]
  refine ⟨?_, rfl, fun t ht => ?_⟩
  · simp [verify_user_email, hget, hnopending]
  · simp only [get_verification_code, hrow]
    simp [ht]

/-- Concrete state for the C9 witness: a live code, no pending record. -/
def dbC9 : Db := ⟨[], [], [], [], [], [⟨"a@x.com", "abc", 10⟩], 0⟩

/-- Witness for C9 at a concrete input. -/
theorem C9_verify_correct_code_no_pending_witness :
    verify_user_email dbC9 5 ⟨"a@x.com", "abc"⟩ =
      (.error .pendingNotFound, dbC9) ∧
    get_verification_code dbC9 9 "a@x.com" = some "abc" := by
  have h := C9_verify_correct_code_no_pending dbC9 5 "a@x.com"
    ⟨"a@x.com", "abc", 10⟩ (by decide) (by decide) (by decide)
  exact ⟨h.1, h.2.2 9 (by decide)⟩

end ITDC
